import Mathlib

/-!
Verification of the runtime connection and telemetry core of the rykard
container-management backend (src-tauri/src/lib.rs and
src-tauri/src/docker_manager.rs), as a shallow embedding in Lean.

Conventions: machine integers are modeled as Nat (u64/u16/u32) or Int (i64)
with explicit wrapping where the Rust code can overflow; f64 arithmetic is
modeled in exact rational arithmetic (all values the claims exercise are
exactly representable, and the Rust cast to u64 is modeled by truncation
toward zero with saturation); fallible engine calls are passed in as
explicit Except-valued arguments; shared mutable state is passed explicitly.
-/

namespace Rykard

/-! ### String helpers: faithful models of the Rust std string functions used -/

/-- Model of Rust str::starts_with on character lists. -/
def strStartsWith : List Char → List Char → Bool
  | _, [] => true
  | [], _ :: _ => false
  | c :: cs, p :: ps => c == p && strStartsWith cs ps

/-- Model of Rust str::contains (substring search) on character lists. -/
def hasSubList : List Char → List Char → Bool
  | [], pat => pat.isEmpty
  | c :: rest, pat => strStartsWith (c :: rest) pat || hasSubList rest pat

/-- Model of Rust str::contains on strings. -/
def strContains (s pat : String) : Bool := hasSubList s.data pat.data

/-- Model of Rust str::trim. Rust trims Unicode whitespace; the inputs
relevant here are ASCII, where Char.isWhitespace agrees. -/
def trimChars (cs : List Char) : List Char :=
  ((cs.dropWhile Char.isWhitespace).reverse.dropWhile Char.isWhitespace).reverse

/-! ### parse_size (lib.rs, helper for human-readable sizes) -/

/-- The character class the parse_size loop sends to the numeric part:
ASCII digits and the decimal point. -/
def isNumericChar (c : Char) : Bool := c.isDigit || c == '.'

/-- Value of a string of decimal digit characters. -/
def digitsVal (ds : List Char) : ℕ :=
  ds.foldl (fun a c => 10 * a + (c.toNat - 48)) 0

/-- Model of Rust numeric_part.parse::<f64>().unwrap_or(0.0), restricted to
the character lists parse_size can produce (digits and dots only). The f64
value is represented exactly as a pair (mantissa, fracLen) denoting the
rational mantissa / 10 ^ fracLen: the parse succeeds iff there is at least
one digit and at most one dot; on failure the Rust code falls back to 0.0,
here (0, 0). Values the program exercises stay below 2^53, where f64
arithmetic on them is exact. -/
def parseNumericN (cs : List Char) : ℕ × ℕ :=
  if cs.any Char.isDigit ∧ cs.count '.' ≤ 1 then
    (digitsVal (cs.filter fun c => !(c == '.')),
      ((cs.dropWhile fun c => !(c == '.')).drop 1).length)
  else (0, 0)

/-- The factor the parse_size match applies for each (already uppercased)
unit string; every unmatched unit falls through to factor 1 (raw bytes),
exactly as the Rust match arms do. -/
def unitMultiplier (u : String) : ℕ :=
  if u = "B" then 1
  else if u = "KB" ∨ u = "K" then 1024
  else if u = "MB" ∨ u = "M" then 1024 * 1024
  else if u = "GB" ∨ u = "G" then 1024 * 1024 * 1024
  else if u = "TB" ∨ u = "T" then 1024 * 1024 * 1024 * 1024
  else 1

/-- Embedding of lib.rs parse_size: empty input short-circuits to 0; the
trimmed input is split character by character, digits and dots going to the
numeric part and all other non-whitespace characters, in order, to the unit
part; the numeric value is multiplied by the factor of the uppercased unit
and cast to u64. The final Rust f64-to-u64 `as` cast truncates toward zero
and saturates at u64::MAX, which for the exact value
mantissa * factor / 10 ^ fracLen is Nat division with a cap. Rust
to_uppercase is modeled by mapping Char.toUpper, which agrees on ASCII. -/
def parse_size (s : String) : ℕ :=
  if s = "" then 0
  else
    let t := trimChars s.data
    let num := parseNumericN (t.filter isNumericChar)
    let factor := unitMultiplier (String.mk ((t.filter fun c =>
      !isNumericChar c && !c.isWhitespace).map Char.toUpper))
    min (num.1 * factor / 10 ^ num.2) (2 ^ 64 - 1)

/-! ### Error taxonomy and the bollard error conversion (lib.rs) -/

inductive DockerError
  | ConnectionError (msg : String)
  | OperationError (msg : String)
  | NotFound (msg : String)
  | PermissionDenied (msg : String)
  | Unknown (msg : String)
  deriving DecidableEq

/-- The Display impl for DockerError (lib.rs 62-72). -/
def DockerError.display : DockerError → String
  | .ConnectionError msg => "Connection error: " ++ msg
  | .OperationError msg => "Operation error: " ++ msg
  | .NotFound msg => "Not found: " ++ msg
  | .PermissionDenied msg => "Permission denied: " ++ msg
  | .Unknown msg => "Unknown error: " ++ msg

/-- A bollard error as far as the From conversion inspects it: a
DockerResponseServerError carries its status code and message; every other
variant is represented by its Display string, which is all the conversion
reads from it. -/
inductive BollardError
  | DockerResponseServerError (status_code : ℕ) (message : String)
  | other (display : String)
  deriving DecidableEq

/-- impl From for DockerError on bollard errors (lib.rs 74-97): 404 maps to
NotFound, 403 to PermissionDenied, other server status codes to
OperationError; a non-response error whose display string contains the
substring "connection" maps to ConnectionError, everything else to
Unknown. -/
def dockerErrorFrom : BollardError → DockerError
  | .DockerResponseServerError status_code message =>
    if status_code = 404 then .NotFound message
    else if status_code = 403 then .PermissionDenied message
    else .OperationError ("Server error (" ++ toString status_code ++ "): " ++ message)
  | .other d =>
    if strContains d "connection" then .ConnectionError d else .Unknown d

/-! ### Connection manager: DockerState (lib.rs) -/

/-- The engine handle: bollard Docker clients are cheaply cloneable
references, modeled by an identifying value with clone the identity. -/
abbrev Docker := ℕ

inductive DockerStatus
  | Connected
  | Disconnected
  | Error (msg : String)
  deriving DecidableEq

structure DockerState where
  client : Option Docker
  status : DockerStatus
  deriving DecidableEq

/-- impl Default for DockerState (lib.rs 118-125). -/
def DockerState.defaultState : DockerState := ⟨none, .Disconnected⟩

/-- DockerState::initialize (lib.rs 128-144), with the outcome of
Docker::connect_with_local_defaults supplied as an argument; the number of
connection attempts made is recorded as the last component. -/
def DockerState.initConn (s : DockerState) (connect : Except String Docker) :
    DockerState × DockerStatus × ℕ :=
  match s.client with
  | some _ => (s, s.status, 0)
  | none =>
    match connect with
    | .ok client => (⟨some client, .Connected⟩, .Connected, 1)
    | .error e =>
      (⟨none, .Error ("Failed to connect to Docker: " ++ e)⟩,
        .Error ("Failed to connect to Docker: " ++ e), 1)

/-- DockerState::get_client (lib.rs 146-153). -/
def DockerState.get_client (s : DockerState) : Except DockerError Docker :=
  match s.client with
  | some client => .ok client
  | none => .error (.ConnectionError "Docker client not initialized")

/-- DockerState::check_status (lib.rs 155-171): the ping outcome for an
existing client, and the connect outcome for the initialization fallback,
are supplied as arguments. Returns the new state and the returned status. -/
def DockerState.check_status (s : DockerState) (ping : Except String Unit)
    (connect : Except String Docker) : DockerState × DockerStatus :=
  match s.client with
  | some _ =>
    match ping with
    | .ok _ => ({ s with status := .Connected }, .Connected)
    | .error e =>
      ({ s with status := .Error ("Docker is not responding: " ++ e) },
        .Error ("Docker is not responding: " ++ e))
  | none =>
    let s' := (s.initConn connect).1
    (s', s'.status)

/-- DockerState::reset (lib.rs 173-177): drop the handle unconditionally,
mark Disconnected, then reinitialize. -/
def DockerState.reset (_s : DockerState) (connect : Except String Docker) :
    DockerState × DockerStatus :=
  let r := DockerState.initConn ⟨none, .Disconnected⟩ connect
  (r.1, r.2.1)

/-! ### Connection manager: docker_manager.rs global client -/

/-- docker_manager.rs initialize_docker (17-31): the global DOCKER_CLIENT
cell is the explicit state; connect outcome supplied as an argument; the
attempt count recorded. On failure nothing is stored in the cell. -/
def init_docker (cell : Option Docker) (connect : Except String Docker) :
    Option Docker × DockerStatus × ℕ :=
  match cell with
  | some _ => (cell, .Connected, 0)
  | none =>
    match connect with
    | .ok client => (some client, .Connected, 1)
    | .error e => (none, .Error ("Failed to connect to Docker: " ++ e), 1)

/-- docker_manager.rs get_docker_client (34-55). -/
def get_docker_client (cell : Option Docker) (connect : Except String Docker) :
    Option Docker × Except String Docker × ℕ :=
  match cell with
  | some client => (cell, .ok client, 0)
  | none =>
    match init_docker cell connect with
    | (cell', .Connected, n) =>
      (cell',
        (match cell' with
          | some client => .ok client
          | none => .error "Failed to get Docker client after initialization"), n)
    | (cell', .Error e, n) => (cell', .error e, n)
    | (cell', .Disconnected, n) => (cell', .error "Failed to initialize Docker client", n)

/-- docker_manager.rs check_docker_status (58-66). -/
def check_docker_status (cell : Option Docker) (connect : Except String Docker)
    (ping : Except String Unit) : Option Docker × DockerStatus :=
  match get_docker_client cell connect with
  | (cell', .ok _, _) =>
    (cell',
      match ping with
      | .ok _ => .Connected
      | .error e => .Error ("Docker is not responding: " ++ e))
  | (cell', .error e, _) => (cell', .Error e)

/-! ### Stats engine (lib.rs) -/

/-- u64-to-i64 `as` cast: two's-complement reinterpretation. -/
def u64AsI64 (n : ℕ) : ℤ := if n < 2 ^ 63 then (n : ℤ) else (n : ℤ) - 2 ^ 64

/-- i64-to-u64 `as` cast: two's-complement reinterpretation. -/
def i64AsU64 (i : ℤ) : ℕ := (i % 2 ^ 64).toNat

structure CpuUsage where
  total_usage : ℕ
  deriving DecidableEq

structure CpuStats where
  cpu_usage : CpuUsage
  system_cpu_usage : Option ℕ
  online_cpus : Option ℕ
  deriving DecidableEq

structure MemoryStats where
  usage : Option ℕ
  limit : Option ℕ
  deriving DecidableEq

structure NetworkStats where
  rx_bytes : ℕ
  tx_bytes : ℕ
  deriving DecidableEq

structure BlkioStatsEntry where
  op : String
  value : ℕ
  deriving DecidableEq

structure BlkioStats where
  io_service_bytes_recursive : Option (List BlkioStatsEntry)
  deriving DecidableEq

/-- The fields of bollard's Stats that lib.rs reads; the networks HashMap is
modeled as a list of interface-name/stats pairs. -/
structure Stats where
  cpu_stats : CpuStats
  precpu_stats : CpuStats
  memory_stats : MemoryStats
  networks : Option (List (String × NetworkStats))
  blkio_stats : BlkioStats
  deriving DecidableEq

/-- lib.rs calculate_cpu_percentage (790-827). The u64 subtractions are
performed under a strict greater-than guard and the results cast with `as`
to i64, which wraps for differences of at least 2^63; the f64 formula is
modeled in exact rational arithmetic. -/
def calculate_cpu_percentage (stats : Stats) : ℚ :=
  let cpu_usage := stats.cpu_stats.cpu_usage.total_usage
  let precpu_usage := stats.precpu_stats.cpu_usage.total_usage
  let cpu_delta : ℤ :=
    if precpu_usage < cpu_usage then u64AsI64 (cpu_usage - precpu_usage) else 0
  let system_cpu_usage := stats.cpu_stats.system_cpu_usage.getD 0
  let system_precpu_usage := stats.precpu_stats.system_cpu_usage.getD 0
  let system_delta : ℤ :=
    if system_precpu_usage < system_cpu_usage then
      u64AsI64 (system_cpu_usage - system_precpu_usage)
    else 0
  let online_cpus : ℚ :=
    match stats.cpu_stats.online_cpus with
    | some cpus => (cpus : ℚ)
    | none => 1
  if 0 < system_delta ∧ 0 < cpu_delta then
    ((cpu_delta : ℚ) / (system_delta : ℚ)) * online_cpus * 100
  else 0

/-- The CPU formula exactly as the spec and claim state it: the deltas are
max(0, current - previous) over the unbounded counters (Nat subtraction is
exactly that), both strictly positive gating the formula, and
online_cpu_count defaulting to 1 when unreported. -/
def cpu_percentage_spec (stats : Stats) : ℚ :=
  let cpu_delta :=
    stats.cpu_stats.cpu_usage.total_usage - stats.precpu_stats.cpu_usage.total_usage
  let system_delta :=
    stats.cpu_stats.system_cpu_usage.getD 0 - stats.precpu_stats.system_cpu_usage.getD 0
  if 0 < system_delta ∧ 0 < cpu_delta then
    ((cpu_delta : ℚ) / (system_delta : ℚ)) * (stats.cpu_stats.online_cpus.getD 1 : ℚ) * 100
  else 0

/-- lib.rs get_network_stats (830-844): sums rx/tx over all interfaces,
with wrapping u64 addition. -/
def get_network_stats (stats : Stats) : ℕ × ℕ :=
  match stats.networks with
  | some networks =>
    networks.foldl (fun acc n =>
      ((acc.1 + n.2.rx_bytes) % 2 ^ 64, (acc.2 + n.2.tx_bytes) % 2 ^ 64)) (0, 0)
  | none => (0, 0)

/-- lib.rs get_block_io_stats (847-867): sums the per-device Read and Write
entries; entries with any other op label are ignored. -/
def get_block_io_stats (stats : Stats) : ℕ × ℕ :=
  match stats.blkio_stats.io_service_bytes_recursive with
  | some entries =>
    entries.foldl (fun acc stat =>
      if stat.op = "Read" then ((acc.1 + stat.value) % 2 ^ 64, acc.2)
      else if stat.op = "Write" then (acc.1, (acc.2 + stat.value) % 2 ^ 64)
      else acc) (0, 0)
  | none => (0, 0)

structure ContainerStats where
  cpu_usage_percent : ℚ
  memory_usage : ℕ
  memory_limit : ℕ
  memory_usage_percent : ℚ
  network_rx_bytes : ℕ
  network_tx_bytes : ℕ
  block_read_bytes : ℕ
  block_write_bytes : ℕ
  deriving DecidableEq

/-- The successful branch of lib.rs get_container_stats (741-779): the
derivation of one ContainerStats sample from one raw Stats snapshot. -/
def container_stats_of (stats : Stats) : ContainerStats :=
  let memory_usage := stats.memory_stats.usage.getD 0
  let memory_limit := stats.memory_stats.limit.getD 0
  { cpu_usage_percent := calculate_cpu_percentage stats
    memory_usage := memory_usage
    memory_limit := memory_limit
    memory_usage_percent :=
      if 0 < memory_limit then ((memory_usage : ℚ) / (memory_limit : ℚ)) * 100 else 0
    network_rx_bytes := (get_network_stats stats).1
    network_tx_bytes := (get_network_stats stats).2
    block_read_bytes := (get_block_io_stats stats).1
    block_write_bytes := (get_block_io_stats stats).2 }

/-- lib.rs get_container_stats (717-787) as a whole: the first item of the
one-shot stats stream is supplied as an argument, none modeling an empty
stream (the NotFound case). -/
def get_container_stats_run (container_id : String)
    (first : Option (Except BollardError Stats)) : Except String ContainerStats :=
  match first with
  | some (.ok stats) => .ok (container_stats_of stats)
  | some (.error e) => .error (dockerErrorFrom e).display
  | none =>
    .error (DockerError.NotFound ("No stats found for container " ++ container_id)).display

/-! ### Resource normalizer (lib.rs list_containers / list_images) -/

structure PortInfo where
  ip : String
  private_port : ℕ
  public_port : ℕ
  type_ : String
  deriving DecidableEq

structure ContainerInfo where
  id : String
  names : List String
  image : String
  state : String
  status : String
  labels : List (String × String)
  ports : List PortInfo
  created : ℕ
  deriving DecidableEq

structure RawPort where
  ip : Option String
  private_port : ℕ
  public_port : Option ℕ
  typ : Option String
  deriving DecidableEq

/-- A bollard ContainerSummary as far as list_containers reads it; the
labels HashMap is modeled as a pair list and the port type enum by the
string its Display renders. -/
structure RawContainerSummary where
  id : Option String
  names : Option (List String)
  image : Option String
  state : Option String
  status : Option String
  labels : Option (List (String × String))
  ports : Option (List RawPort)
  created : Option ℤ
  deriving DecidableEq

/-- The per-record mapping inside lib.rs list_containers (220-268): each
name goes through Rust trim_start_matches with the char pattern slash,
which removes every leading slash; optional fields default to empty/zero; a
missing port protocol defaults to tcp; created is cast from i64 to u64. -/
def containerInfoOf (c : RawContainerSummary) : ContainerInfo :=
  { id := c.id.getD ""
    names := (c.names.getD []).map fun name =>
      String.mk (name.data.dropWhile fun ch => ch == '/')
    image := c.image.getD ""
    state := c.state.getD ""
    status := c.status.getD ""
    labels := c.labels.getD []
    ports := (c.ports.getD []).map fun p =>
      { ip := p.ip.getD ""
        private_port := p.private_port
        public_port := p.public_port.getD 0
        type_ := p.typ.getD "tcp" }
    created := i64AsU64 (c.created.getD 0) }

structure ImageInfo where
  id : String
  repo_tags : List String
  size : ℕ
  created : ℕ
  deriving DecidableEq

structure RawImageSummary where
  id : String
  repo_tags : List String
  size : ℤ
  created : ℤ
  deriving DecidableEq

def sha256Pat : List Char := "sha256:".data

/-- Rust str::trim_start_matches with the string pattern "sha256:":
repeatedly removes the pattern from the front while present. Implemented
with explicit fuel; one unit of fuel per character of the input suffices
since each removal consumes seven characters. -/
def stripSha256Aux : ℕ → List Char → List Char
  | 0, s => s
  | fuel + 1, s =>
    if strStartsWith s sha256Pat then stripSha256Aux fuel (s.drop 7) else s

def stripSha256 (s : List Char) : List Char := stripSha256Aux s.length s

/-- The per-record mapping inside lib.rs list_images (296-316): the id is
stripped of its "sha256:" front matter; size and created are cast from i64
to u64. -/
def imageInfoOf (img : RawImageSummary) : ImageInfo :=
  { id := String.mk (stripSha256 img.id.data)
    repo_tags := img.repo_tags
    size := i64AsU64 img.size
    created := i64AsU64 img.created }

/-! ### Image name splitting (lib.rs pull_image / pull_image_with_progress) -/

/-- Rust str::split with the char pattern colon, on character lists. -/
def splitColon : List Char → List (List Char)
  | [] => [[]]
  | c :: rest =>
    if c == ':' then [] :: splitColon rest
    else
      match splitColon rest with
      | [] => [[c]]
      | h :: t => (c :: h) :: t

/-- The repository/tag split shared by lib.rs pull_image (402-404) and
pull_image_with_progress (616-618): parts = image_name.split(colon),
repository = parts[0], tag = parts[1] when there is more than one part and
"latest" otherwise. The empty-parts case is unreachable (split always
yields at least one part). -/
def parseImageName (s : String) : String × String :=
  match splitColon s.data with
  | [] => ("", "latest")
  | [repo] => (String.mk repo, "latest")
  | repo :: tag :: _ => (String.mk repo, String.mk tag)

/-! ### Event and pull-progress relays (lib.rs) -/

/-- A notification pushed to the window sink: event name and payload. -/
abbrev Emission := String × String

/-- The body of the task spawned by subscribe_to_docker_events (575-594),
applied to a finite stream: each Ok event is serialized (ser, with none
modeling a serde_json failure, in which case the emit is skipped) and
emitted as docker-event; each stream error is emitted as
docker-event-error, after which the loop continues with the next item. -/
def eventsRelay {α : Type} (ser : α → Option String) :
    List (Except String α) → List Emission
  | [] => []
  | .ok ev :: rest =>
    (match ser ev with
      | some json => [("docker-event", json)]
      | none => []) ++ eventsRelay ser rest
  | .error e :: rest =>
    ("docker-event-error", "Error: " ++ e) :: eventsRelay ser rest

/-- subscribe_to_docker_events (557-597): the command spawns the relay task
and returns Ok; its return value is paired with the emissions the spawned
relay produces over the stream. -/
def subscribe_to_docker_events {α : Type} (ser : α → Option String)
    (stream : List (Except String α)) : Except String Unit × List Emission :=
  (.ok (), eventsRelay ser stream)

/-- The loop of pull_image_with_progress (630-646), run inline in the
command: Ok progress items are serialized and emitted as pull-progress; the
first stream error aborts the loop and the command returns the formatted
OperationError display, with no further emission and the rest of the stream
unconsumed. -/
def pullProgressRelay {α : Type} (ser : α → Option String) :
    List (Except String α) → List Emission × Except String Unit
  | [] => ([], .ok ())
  | .ok p :: rest =>
    let r := pullProgressRelay ser rest
    ((match ser p with
      | some json => [("pull-progress", json)]
      | none => []) ++ r.1, r.2)
  | .error e :: _ =>
    ([], .error (DockerError.OperationError ("Failed to pull image: " ++ e)).display)

/-- pull_image_with_progress (600-649): the command's return value is the
relay loop's outcome, produced only after the stream ends or fails. -/
def pull_image_with_progress {α : Type} (ser : α → Option String)
    (stream : List (Except String α)) : Except String Unit × List Emission :=
  let r := pullProgressRelay ser stream
  (r.2, r.1)

/-! ### create_container (lib.rs) -/

/-- lib.rs create_container (519-550), with the engine outcomes of the
create and start calls supplied as arguments; the Bool records whether a
container now exists on the engine (the create call succeeded). -/
def create_container_run (createRes : Except BollardError String)
    (startRes : Except BollardError Unit) : Except String Unit × Bool :=
  match createRes with
  | .ok cid =>
    (match startRes with
      | .ok _ => .ok ()
      | .error e =>
        .error ("Container created (ID: " ++ cid ++ "), but failed to start: " ++
          (dockerErrorFrom e).display), true)
  | .error e => (.error (dockerErrorFrom e).display, false)

/-! ### Concrete samples used by individual claims -/

/-- k copies of the "sha256:" pattern in front of each other. -/
def sha256Reps : ℕ → List Char
  | 0 => []
  | k + 1 => sha256Pat ++ sha256Reps k

/-- A stats sample whose CPU counter difference is 2^63: a valid pair of
u64 counters on which the i64 cast in calculate_cpu_percentage wraps
negative. -/
def cpuWrapSample : Stats :=
  ⟨⟨⟨2 ^ 63⟩, some 1000, some 2⟩, ⟨⟨0⟩, some 0, none⟩, ⟨none, none⟩, none, ⟨none⟩⟩

/-- The stats sample from the claim: cpu delta 200, system delta 1000, two
online cpus. -/
def cpuFortySample : Stats :=
  ⟨⟨⟨300⟩, some 1100, some 2⟩, ⟨⟨100⟩, some 100, none⟩, ⟨none, none⟩, none, ⟨none⟩⟩

/-- A raw container record whose single name has two leading slashes. -/
def doubleSlashSummary : RawContainerSummary :=
  ⟨none, some ["//web-1"], none, none, none, none, none, none⟩

/-! ### Helper lemmas -/

theorem data_append (a b : String) : (a ++ b).data = a.data ++ b.data := by
  cases a
  cases b
  rfl

theorem mk_data (s : String) : String.mk s.data = s := rfl

theorem strStartsWith_append_self (p s : List Char) :
    strStartsWith (p ++ s) p = true := by
  induction p with
  | nil => cases s <;> rfl
  | cons c ps ih => simp [strStartsWith, ih]

theorem hasSubList_of_starts {s p : List Char} (h : strStartsWith s p = true) :
    hasSubList s p = true := by
  cases s with
  | nil =>
    cases p with
    | nil => rfl
    | cons c ps => simp [strStartsWith] at h
  | cons c rest => simp [hasSubList, h]

theorem hasSubList_append (a p b : List Char) :
    hasSubList (a ++ (p ++ b)) p = true := by
  induction a with
  | nil => exact hasSubList_of_starts (strStartsWith_append_self p b)
  | cons c a' ih =>
    simp only [List.cons_append, hasSubList, Bool.or_eq_true]
    exact Or.inr ih

theorem strContains_append (a p b : String) :
    strContains (a ++ p ++ b) p = true := by
  have h : (a ++ p ++ b).data = a.data ++ (p.data ++ b.data) := by
    rw [data_append, data_append, List.append_assoc]
  rw [strContains, h]
  exact hasSubList_append a.data p.data b.data

theorem dropWhile_of_all_neg {α : Type} {p : α → Bool} :
    ∀ {l : List α}, (∀ c ∈ l, p c = false) → l.dropWhile p = l
  | [], _ => rfl
  | c :: cs, h => by simp [List.dropWhile, h c (by simp)]

theorem dropWhile_of_all_pos {α : Type} {p : α → Bool} :
    ∀ {l : List α}, (∀ c ∈ l, p c = true) → l.dropWhile p = []
  | [], _ => rfl
  | c :: cs, h => by
    simp only [List.dropWhile, h c (by simp)]
    exact dropWhile_of_all_pos fun d hd => h d (by simp [hd])

theorem filter_of_all_pos {α : Type} {p : α → Bool} :
    ∀ {l : List α}, (∀ c ∈ l, p c = true) → l.filter p = l
  | [], _ => rfl
  | c :: cs, h => by
    simp only [List.filter, h c (by simp)]
    rw [filter_of_all_pos fun d hd => h d (by simp [hd])]

theorem filter_of_all_neg {α : Type} {p : α → Bool} :
    ∀ {l : List α}, (∀ c ∈ l, p c = false) → l.filter p = []
  | [], _ => rfl
  | c :: cs, h => by
    simp only [List.filter, h c (by simp)]
    exact filter_of_all_neg fun d hd => h d (by simp [hd])

theorem isDigit_not_ws {c : Char} (h : c.isDigit = true) : c.isWhitespace = false := by
  cases hw : c.isWhitespace with
  | false => rfl
  | true =>
    exfalso
    simp only [Char.isWhitespace, Bool.or_eq_true, decide_eq_true_eq] at hw
    rcases hw with ((rfl | rfl) | rfl) | rfl <;> exact absurd h (by decide)

theorem isDigit_numeric {c : Char} (h : c.isDigit = true) : isNumericChar c = true := by
  simp [isNumericChar, h]

theorem isDigit_ne_dot {c : Char} (h : c.isDigit = true) : (c == '.') = false := by
  cases hd : c == '.' with
  | false => rfl
  | true =>
    exfalso
    rw [beq_iff_eq] at hd
    rw [hd] at h
    exact absurd h (by decide)

/-! ### C5: error taxonomy -/

/-- C5 (confirmed): the conversion of engine errors to the error taxonomy is
a deterministic function mapping a status-404 server response to NotFound,
403 to PermissionDenied, any other status code to OperationError, a
non-response error whose message contains the substring "connection" to
ConnectionError, and every other error to Unknown. -/
theorem C5_error_taxonomy :
    (∀ m : String, dockerErrorFrom (.DockerResponseServerError 404 m) = .NotFound m) ∧
    (∀ m : String, dockerErrorFrom (.DockerResponseServerError 403 m) = .PermissionDenied m) ∧
    (∀ (code : ℕ) (m : String), code ≠ 404 → code ≠ 403 →
      dockerErrorFrom (.DockerResponseServerError code m) =
        .OperationError ("Server error (" ++ toString code ++ "): " ++ m)) ∧
    (∀ a b : String, dockerErrorFrom (.other (a ++ "connection" ++ b)) =
      .ConnectionError (a ++ "connection" ++ b)) ∧
    (∀ d : String, strContains d "connection" = false →
      dockerErrorFrom (.other d) = .Unknown d) := by
  refine ⟨fun m => rfl, fun m => rfl, fun code m h4 h3 => ?_, fun a b => ?_, fun d h => ?_⟩
  · simp [dockerErrorFrom, h4, h3]
  · simp [dockerErrorFrom, strContains_append]
  · simp [dockerErrorFrom, h]

/-- Witness for C5 at concrete inputs: status code 500 and a message with no
connection indication. -/
theorem C5_error_taxonomy_witness :
    dockerErrorFrom (.DockerResponseServerError 500 "boom") =
      .OperationError "Server error (500): boom" ∧
    dockerErrorFrom (.other "io failure") = .Unknown "io failure" := by
  constructor
  · have h := C5_error_taxonomy.2.2.1 500 "boom" (by decide) (by decide)
    rw [h]
    rfl
  · exact C5_error_taxonomy.2.2.2.2 "io failure" (by decide)

/-! ### C7: memory percentage safety -/

/-- C7 (confirmed): for every stats sample, memory_usage_percent equals
usage / limit * 100 when the limit is positive and is exactly 0 when the
limit is 0 (or unreported, which the code reads as 0); the division is
total, so a zero limit can never fault. -/
theorem C7_memory_percent :
    ∀ stats : Stats,
      (stats.memory_stats.limit.getD 0 = 0 →
        (container_stats_of stats).memory_usage_percent = 0) ∧
      (∀ l : ℕ, stats.memory_stats.limit = some l → 0 < l →
        (container_stats_of stats).memory_usage_percent =
          ((stats.memory_stats.usage.getD 0 : ℚ) / (l : ℚ)) * 100) := by
  intro stats
  constructor
  · intro h
    simp [container_stats_of, h]
  · intro l hl hpos
    simp [container_stats_of, hl, hpos]

/-- Witness for C7: a sample with usage 1024 and limit 2048 yields 50%, and
a sample with limit 0 yields exactly 0. -/
theorem C7_memory_percent_witness :
    (container_stats_of
      ⟨⟨⟨0⟩, none, none⟩, ⟨⟨0⟩, none, none⟩, ⟨some 1024, some 2048⟩, none, ⟨none⟩⟩).memory_usage_percent =
      ((1024 : ℚ) / (2048 : ℚ)) * 100 ∧
    (container_stats_of
      ⟨⟨⟨0⟩, none, none⟩, ⟨⟨0⟩, none, none⟩, ⟨some 7, some 0⟩, none, ⟨none⟩⟩).memory_usage_percent = 0 := by
  constructor
  · exact (C7_memory_percent _).2 2048 rfl (by norm_num)
  · exact (C7_memory_percent _).1 rfl

/-! ### C9: create_container is not atomic -/

/-- C9 (confirmed): create_container returns success only when both the
engine-side creation and the subsequent start succeed; when creation
succeeds and the start fails it returns an error even though the container
was already created (the engine state changed despite the error result);
when creation fails nothing was created. -/
theorem C9_create_container_not_atomic :
    (∀ (createRes : Except BollardError String) (startRes : Except BollardError Unit),
      (create_container_run createRes startRes).1 = .ok () ↔
        (∃ cid, createRes = .ok cid) ∧ startRes = .ok ()) ∧
    (∀ (cid : String) (e : BollardError),
      (create_container_run (.ok cid) (.error e)).2 = true ∧
      (create_container_run (.ok cid) (.error e)).1 =
        .error ("Container created (ID: " ++ cid ++ "), but failed to start: " ++
          (dockerErrorFrom e).display)) ∧
    (∀ (e : BollardError) (startRes : Except BollardError Unit),
      (create_container_run (.error e) startRes).2 = false) := by
  refine ⟨fun createRes startRes => ?_, fun cid e => ⟨rfl, rfl⟩, fun e startRes => rfl⟩
  cases createRes with
  | ok cid =>
    cases startRes with
    | ok u => cases u; simp [create_container_run]
    | error e => simp [create_container_run]
  | error e => simp [create_container_run]

/-! ### C10: image name splitting -/

theorem splitColon_no_colon : ∀ {s : List Char}, ':' ∉ s → splitColon s = [s]
  | [], _ => rfl
  | c :: rest, h => by
    have hc : (c == ':') = false :=
      beq_eq_false_iff_ne.mpr fun he => h (he ▸ List.mem_cons_self c rest)
    have ih := splitColon_no_colon (s := rest) fun hm => h (List.mem_cons_of_mem c hm)
    simp [splitColon, hc, ih]

theorem splitColon_append : ∀ {a : List Char} (r : List Char), ':' ∉ a →
    splitColon (a ++ ':' :: r) = a :: splitColon r
  | [], r, _ => by simp [splitColon]
  | c :: a', r, h => by
    have hc : (c == ':') = false :=
      beq_eq_false_iff_ne.mpr fun he => h (he ▸ List.mem_cons_self c a')
    have ih := splitColon_append (a := a') r fun hm => h (List.mem_cons_of_mem c hm)
    simp [splitColon, hc, ih]

theorem splitColon_head : ∀ s : List Char,
    ∃ t, splitColon s = (s.takeWhile fun c => !(c == ':')) :: t
  | [] => ⟨[], rfl⟩
  | c :: rest => by
    cases hc : c == ':' with
    | true =>
      have hce : c = ':' := beq_iff_eq.mp hc
      subst hce
      exact ⟨splitColon rest, by simp [splitColon, List.takeWhile_cons]⟩
    | false =>
      obtain ⟨t, ht⟩ := splitColon_head rest
      exact ⟨t, by simp [splitColon, List.takeWhile_cons, hc, ht]⟩

/-- C10 (confirmed): for every image name passed to pull_image or
pull_image_with_progress, a name without a colon becomes the whole
repository with tag defaulting to latest; otherwise the repository is the
text before the first colon and the tag the text between the first and
second colon, any text after a second colon being ignored. -/
theorem C10_image_name_split :
    (∀ s : String, ':' ∉ s.data → parseImageName s = (s, "latest")) ∧
    (∀ a b : List Char, ':' ∉ a →
      parseImageName (String.mk (a ++ ':' :: b)) =
        (String.mk a, String.mk (b.takeWhile fun c => !(c == ':')))) := by
  constructor
  · intro s h
    unfold parseImageName
    rw [splitColon_no_colon h]
  · intro a b h
    unfold parseImageName
    rw [show (String.mk (a ++ ':' :: b)).data = a ++ ':' :: b from rfl,
      splitColon_append b h]
    obtain ⟨t, ht⟩ := splitColon_head b
    rw [ht]

/-- Witness for C10: a plain name defaults to the latest tag, and a name
with two colons keeps only the middle section as tag. -/
theorem C10_image_name_split_witness :
    parseImageName "ubuntu" = ("ubuntu", "latest") ∧
    parseImageName "redis:7.2:bonus" = ("redis", "7.2") := by
  constructor
  · exact C10_image_name_split.1 "ubuntu" (by decide)
  · have h := C10_image_name_split.2 "redis".data "7.2:bonus".data (by decide)
    rw [show String.mk ("redis".data ++ ':' :: "7.2:bonus".data) = "redis:7.2:bonus" from rfl] at h
    rw [h]
    decide

/-! ### C4: lazy, idempotent connection acquisition -/

/-- C4 (confirmed): with a handle present, both acquisition paths return the
existing handle with no connection attempt and no state change; with no
handle, exactly one establishment is attempted and the caller observes
either the stored handle or the attempt's error, never a partial state; a
second call after a successful one is a no-op. -/
theorem C4_lazy_idempotent :
    (∀ (c : Docker) (connect : Except String Docker),
      get_docker_client (some c) connect = (some c, .ok c, 0)) ∧
    (∀ c : Docker, get_docker_client none (.ok c) = (some c, .ok c, 1)) ∧
    (∀ e : String, get_docker_client none (.error e) =
      (none, .error ("Failed to connect to Docker: " ++ e), 1)) ∧
    (∀ (s : DockerState) (h : Docker) (connect : Except String Docker),
      s.client = some h → s.initConn connect = (s, s.status, 0)) ∧
    (∀ (s : DockerState) (c : Docker), s.client = none →
      s.initConn (.ok c) = (⟨some c, .Connected⟩, .Connected, 1)) ∧
    (∀ (s : DockerState) (e : String), s.client = none →
      s.initConn (.error e) =
        (⟨none, .Error ("Failed to connect to Docker: " ++ e)⟩,
          .Error ("Failed to connect to Docker: " ++ e), 1)) ∧
    (∀ (c : Docker) (connect' : Except String Docker),
      get_docker_client (get_docker_client none (.ok c)).1 connect' =
        ((get_docker_client none (.ok c)).1, .ok c, 0)) := by
  refine ⟨fun c connect => rfl, fun c => rfl, fun e => rfl, ?_, ?_, ?_, fun c connect' => rfl⟩
  · intro s h connect hs
    obtain ⟨cl, st⟩ := s
    have hcl : cl = some h := hs
    subst hcl
    rfl
  · intro s c hs
    obtain ⟨cl, st⟩ := s
    have hcl : cl = none := hs
    subst hcl
    rfl
  · intro s e hs
    obtain ⟨cl, st⟩ := s
    have hcl : cl = none := hs
    subst hcl
    rfl

/-- Witness for C4: a state already holding handle 5 is untouched by a
further initialization even when the ambient connect attempt would fail. -/
theorem C4_lazy_idempotent_witness :
    (DockerState.mk (some 5) .Connected).initConn (.error "unreachable") =
      (DockerState.mk (some 5) .Connected, .Connected, 0) :=
  C4_lazy_idempotent.2.2.2.1 ⟨some 5, .Connected⟩ 5 (.error "unreachable") rfl

/-! ### C3: status errors are sticky while the engine stays unreachable -/

theorem check_status_fail {s : DockerState} {h : Docker} (e : String)
    (connect : Except String Docker) (hs : s.client = some h) :
    (s.check_status (.error e) connect).1 =
      ⟨some h, .Error ("Docker is not responding: " ++ e)⟩ ∧
    (s.check_status (.error e) connect).2 =
      .Error ("Docker is not responding: " ++ e) := by
  obtain ⟨cl, st⟩ := s
  have hcl : cl = some h := hs
  subst hcl
  exact ⟨rfl, rfl⟩

theorem foldFail_keeps_error (connect : Except String Docker) (h : Docker) :
    ∀ (errs : List String) (s : DockerState), s.client = some h →
      (∃ m, s.status = .Error m) →
      (errs.foldl (fun st e => (st.check_status (.error e) connect).1) s).client = some h ∧
      ∃ m, (errs.foldl (fun st e => (st.check_status (.error e) connect).1) s).status = .Error m
  | [], _, hs, hm => ⟨hs, hm⟩
  | e :: errs, s, hs, _ => by
    have step := check_status_fail e connect hs
    simp only [List.foldl_cons]
    refine foldFail_keeps_error connect h errs _ ?_ ?_
    · rw [step.1]
    · rw [step.1]
      exact ⟨_, rfl⟩

/-- C3 (confirmed): when status() pings an existing handle and the ping
fails, the state transitions to Error while the handle reference is kept;
as long as the handle stays unreachable (every subsequent ping fails), any
sequence of further status() calls keeps the state in Error and never
yields Connected; an explicit reset() with a fresh successful connection is
what restores Connected. -/
theorem C3_status_error_sticky :
    (∀ (s : DockerState) (h : Docker) (e : String) (connect : Except String Docker),
      s.client = some h →
        (s.check_status (.error e) connect).1.client = some h ∧
        (s.check_status (.error e) connect).1.status =
          .Error ("Docker is not responding: " ++ e) ∧
        (s.check_status (.error e) connect).2 =
          .Error ("Docker is not responding: " ++ e)) ∧
    (∀ (s : DockerState) (h : Docker) (connect : Except String Docker) (errs : List String),
      s.client = some h → errs ≠ [] →
        (errs.foldl (fun st e => (st.check_status (.error e) connect).1) s).client = some h ∧
        ∃ m, (errs.foldl
          (fun st e => (st.check_status (.error e) connect).1) s).status = .Error m) ∧
    (∀ (s : DockerState) (h' : Docker),
      s.reset (.ok h') = (⟨some h', .Connected⟩, .Connected)) := by
  refine ⟨?_, ?_, fun s h' => rfl⟩
  · intro s h e connect hs
    have st := check_status_fail e connect hs
    exact ⟨by rw [st.1], by rw [st.1], st.2⟩
  · intro s h connect errs hs hne
    cases errs with
    | nil => exact absurd rfl hne
    | cons e rest =>
      have step := check_status_fail e connect hs
      simp only [List.foldl_cons]
      refine foldFail_keeps_error connect h rest _ ?_ ?_
      · rw [step.1]
      · rw [step.1]
        exact ⟨_, rfl⟩

/-- Witness for C3: starting Connected with handle 3, two failed pings
leave the handle in place and the status in Error. -/
theorem C3_status_error_sticky_witness :
    (["down1", "down2"].foldl
      (fun (st : DockerState) (e : String) =>
        (st.check_status (.error e) (.error "no daemon")).1)
      ⟨some 3, .Connected⟩).client = some 3 ∧
    ∃ m, (["down1", "down2"].foldl
      (fun (st : DockerState) (e : String) =>
        (st.check_status (.error e) (.error "no daemon")).1)
      ⟨some 3, .Connected⟩).status = .Error m :=
  C3_status_error_sticky.2.1 ⟨some 3, .Connected⟩ 3 (.error "no daemon")
    ["down1", "down2"] rfl (by simp)

/-! ### C2: CPU percentage derivation -/

theorem u64AsI64_small {n : ℕ} (h : n < 2 ^ 63) : u64AsI64 n = (n : ℤ) :=
  if_pos h

theorem cpu_if_eq (a b S P : ℕ) (oc : Option ℕ)
    (h1 : a - b < 2 ^ 63) (h2 : S - P < 2 ^ 63) :
    (if 0 < (if P < S then u64AsI64 (S - P) else 0) ∧
        0 < (if b < a then u64AsI64 (a - b) else 0) then
      (((if b < a then u64AsI64 (a - b) else 0) : ℤ) : ℚ) /
          (((if P < S then u64AsI64 (S - P) else 0) : ℤ) : ℚ) *
          (match oc with | some c => (c : ℚ) | none => 1) * 100
    else 0) =
    (if 0 < S - P ∧ 0 < a - b then
      ((a - b : ℕ) : ℚ) / ((S - P : ℕ) : ℚ) * ((oc.getD 1 : ℕ) : ℚ) * 100
    else 0) := by
  by_cases hab : b < a
  · by_cases hsys : P < S
    · rw [if_pos hab, if_pos hsys, u64AsI64_small h1, u64AsI64_small h2]
      simp only [Int.natCast_pos, Int.cast_natCast]
      cases oc with
      | none => simp
      | some c => simp [Option.getD]
    · have hz : S - P = 0 := by omega
      rw [if_pos hab, if_neg hsys, hz]
      simp
  · have hz : a - b = 0 := by omega
    rw [if_neg hab, hz]
    simp

/-- Counterexample for C2 as stated: on the valid u64 sample with
cpu_delta 2^63 the code's i64 cast wraps negative and the function returns
0, while the claimed max(0, current - previous) formula gives a positive
percentage. -/
theorem C2_cpu_percent_counterexample :
    calculate_cpu_percentage cpuWrapSample = 0 ∧
    cpu_percentage_spec cpuWrapSample ≠ 0 := by
  constructor
  · unfold calculate_cpu_percentage cpuWrapSample u64AsI64
    norm_num
  · unfold cpu_percentage_spec cpuWrapSample
    norm_num

/-- C2 (corrected): the derived CPU percentage equals the claimed formula
(cpu_delta / system_delta) * online_cpu_count * 100 gated on both deltas
being positive, with online_cpu_count defaulting to 1 — provided each
counter difference is below 2^63; the code casts the unsigned differences
with `as` to i64, so a difference of at least 2^63 wraps negative and makes
the result 0 instead. On the claimed concrete sample (delta 200 over 1000
with 2 cpus) the result is exactly 40. -/
theorem C2_cpu_percent_amended :
    (∀ stats : Stats,
      stats.cpu_stats.cpu_usage.total_usage -
          stats.precpu_stats.cpu_usage.total_usage < 2 ^ 63 →
      stats.cpu_stats.system_cpu_usage.getD 0 -
          stats.precpu_stats.system_cpu_usage.getD 0 < 2 ^ 63 →
      calculate_cpu_percentage stats = cpu_percentage_spec stats) ∧
    calculate_cpu_percentage cpuFortySample = 40 := by
  constructor
  · intro stats h1 h2
    obtain ⟨⟨⟨a⟩, sa, oc⟩, ⟨⟨b⟩, sb, oc'⟩, mem, nets, blk⟩ := stats
    exact cpu_if_eq a b (sa.getD 0) (sb.getD 0) oc h1 h2
  · unfold calculate_cpu_percentage cpuFortySample u64AsI64
    norm_num

/-- Witness for C2: the amended equivalence applied to the concrete
delta-200/1000 sample. -/
theorem C2_cpu_percent_amended_witness :
    calculate_cpu_percentage cpuFortySample = cpu_percentage_spec cpuFortySample :=
  C2_cpu_percent_amended.1 cpuFortySample (by decide) (by decide)

/-! ### C6: name and id normalization -/

theorem dropSlash_replicate : ∀ (k : ℕ) (rest : List Char), rest.head? ≠ some '/' →
    (List.replicate k '/' ++ rest).dropWhile (fun ch => ch == '/') = rest
  | 0, rest, h => by
    cases rest with
    | nil => rfl
    | cons c cs =>
      have hc : (c == '/') = false :=
        beq_eq_false_iff_ne.mpr fun he => h (by subst he; rfl)
      simp [List.dropWhile_cons, hc]
  | k + 1, rest, h => by
    simp only [List.replicate_succ, List.cons_append, List.dropWhile_cons]
    simp [dropSlash_replicate k rest h]

theorem strStartsWith_le_length : ∀ {s p : List Char},
    strStartsWith s p = true → p.length ≤ s.length
  | _, [], _ => Nat.zero_le _
  | [], _ :: _, h => by simp [strStartsWith] at h
  | c :: cs, q :: ps, h => by
    simp only [strStartsWith, Bool.and_eq_true] at h
    simpa using Nat.succ_le_succ (strStartsWith_le_length h.2)

theorem stripSha256Aux_no_start : ∀ (fuel : ℕ) {s : List Char},
    strStartsWith s sha256Pat = false → stripSha256Aux fuel s = s
  | 0, _, _ => rfl
  | fuel + 1, s, h => by simp [stripSha256Aux, h]

theorem stripSha256Aux_fuel : ∀ (n f₁ f₂ : ℕ) (s : List Char),
    s.length ≤ n → s.length ≤ f₁ → s.length ≤ f₂ →
    stripSha256Aux f₁ s = stripSha256Aux f₂ s := by
  intro n
  induction n with
  | zero =>
    intro f₁ f₂ s hn _ _
    have hs : s = [] := List.eq_nil_of_length_eq_zero (Nat.le_zero.mp hn)
    subst hs
    have hss : strStartsWith [] sha256Pat = false := by decide
    rw [stripSha256Aux_no_start f₁ hss, stripSha256Aux_no_start f₂ hss]
  | succ n ih =>
    intro f₁ f₂ s hn h1 h2
    cases hss : strStartsWith s sha256Pat with
    | false => rw [stripSha256Aux_no_start f₁ hss, stripSha256Aux_no_start f₂ hss]
    | true =>
      have hlen : 7 ≤ s.length := by
        have h7 := strStartsWith_le_length hss
        rw [show sha256Pat.length = 7 from rfl] at h7
        exact h7
      obtain ⟨f₁', rfl⟩ : ∃ f, f₁ = f + 1 := ⟨f₁ - 1, by omega⟩
      obtain ⟨f₂', rfl⟩ : ∃ f, f₂ = f + 1 := ⟨f₂ - 1, by omega⟩
      simp only [stripSha256Aux, hss, if_true]
      have hdrop : (s.drop 7).length = s.length - 7 := by simp
      exact ih f₁' f₂' (s.drop 7) (by omega) (by omega) (by omega)

theorem stripSha256_pat_append (s : List Char) :
    stripSha256 (sha256Pat ++ s) = stripSha256 s := by
  have hstart : strStartsWith (sha256Pat ++ s) sha256Pat = true :=
    strStartsWith_append_self _ _
  unfold stripSha256
  rw [show (sha256Pat ++ s).length = s.length + 7 by
      rw [List.length_append, show sha256Pat.length = 7 from rfl]; omega,
    show s.length + 7 = (s.length + 6) + 1 from rfl]
  simp only [stripSha256Aux, hstart, if_true]
  rw [show (sha256Pat ++ s).drop 7 = s from rfl]
  exact stripSha256Aux_fuel s.length (s.length + 6) s.length s (Nat.le_refl _)
    (by omega) (Nat.le_refl _)

theorem stripSha256_reps : ∀ (k : ℕ) (rest : List Char),
    strStartsWith rest sha256Pat = false →
    stripSha256 (sha256Reps k ++ rest) = rest
  | 0, rest, h => by
    simp only [sha256Reps, List.nil_append]
    unfold stripSha256
    exact stripSha256Aux_no_start _ h
  | k + 1, rest, h => by
    simp only [sha256Reps, List.append_assoc]
    rw [stripSha256_pat_append]
    exact stripSha256_reps k rest h

/-- Counterexample for C6 as stated: a raw name with two leading slashes
loses both of them, while stripping exactly one leading separator would
leave "/web-1". -/
theorem C6_normalization_counterexample :
    (containerInfoOf doubleSlashSummary).names = ["web-1"] ∧
    (containerInfoOf doubleSlashSummary).names ≠ ["/web-1"] := by
  constructor
  · decide
  · decide

/-- C6 (corrected): normalization strips EVERY leading separator or prefix
occurrence, not exactly one. For container records, all leading slashes of
each raw name are removed, however many there are (for a single one,
"/web-1" normalizes to "web-1" as the claim says); for image records, all
leading "sha256:" occurrences are removed from the id (for a single one,
"sha256:abcd" normalizes to "abcd" as the claim says). -/
theorem C6_normalization_amended :
    (∀ (k : ℕ) (rest : List Char), rest.head? ≠ some '/' →
      (containerInfoOf ⟨none, some [String.mk (List.replicate k '/' ++ rest)],
        none, none, none, none, none, none⟩).names = [String.mk rest]) ∧
    (∀ c : RawContainerSummary, c.names = some ["/web-1"] →
      (containerInfoOf c).names = ["web-1"]) ∧
    (∀ (k : ℕ) (rest : List Char), strStartsWith rest sha256Pat = false →
      (imageInfoOf ⟨String.mk (sha256Reps k ++ rest), [], 0, 0⟩).id = String.mk rest) ∧
    (∀ img : RawImageSummary, img.id = "sha256:abcd" →
      (imageInfoOf img).id = "abcd") := by
  refine ⟨?_, ?_, ?_, ?_⟩
  · intro k rest h
    simp only [containerInfoOf, Option.getD, List.map]
    rw [dropSlash_replicate k rest h]
  · intro c hc
    simp only [containerInfoOf]
    rw [hc]
    decide
  · intro k rest h
    simp only [imageInfoOf]
    rw [stripSha256_reps k rest h]
  · intro img h
    simp only [imageInfoOf]
    rw [h]
    decide

/-- Witness for C6: three leading slashes are all stripped from a name, and
two stacked "sha256:" occurrences are both stripped from an image id. -/
theorem C6_normalization_amended_witness :
    (containerInfoOf ⟨none, some [String.mk (List.replicate 3 '/' ++ "api".data)],
      none, none, none, none, none, none⟩).names = [String.mk "api".data] ∧
    (imageInfoOf ⟨String.mk (sha256Reps 2 ++ "abcd".data), [], 0, 0⟩).id =
      String.mk "abcd".data :=
  ⟨C6_normalization_amended.1 3 "api".data (by decide),
   C6_normalization_amended.2.2.1 2 "abcd".data (by decide)⟩

/-! ### C8: event and pull-progress relays -/

theorem eventsRelay_append {α : Type} (ser : α → Option String)
    (s1 s2 : List (Except String α)) :
    eventsRelay ser (s1 ++ s2) = eventsRelay ser s1 ++ eventsRelay ser s2 := by
  induction s1 with
  | nil => rfl
  | cons x rest ih =>
    cases x with
    | ok ev => simp [eventsRelay, ih]
    | error e => simp [eventsRelay, ih]

theorem pullProgressRelay_stops {α : Type} (ser : α → Option String) :
    ∀ (pre : List (Except String α)) (e : String) (post : List (Except String α)),
      (∀ x ∈ pre, ∃ p, x = .ok p) →
      pullProgressRelay ser (pre ++ .error e :: post) =
        ((pullProgressRelay ser pre).1,
          .error (DockerError.OperationError ("Failed to pull image: " ++ e)).display)
  | [], e, post, _ => by simp [pullProgressRelay]
  | x :: pre, e, post, h => by
    obtain ⟨p, rfl⟩ := h x (by simp)
    have ih := pullProgressRelay_stops ser pre e post fun y hy => h y (by simp [hy])
    simp [pullProgressRelay, ih]

theorem pullProgressRelay_all_ok {α : Type} (ser : α → Option String) :
    ∀ stream : List (Except String α), (∀ x ∈ stream, ∃ p, x = .ok p) →
      (pullProgressRelay ser stream).2 = .ok ()
  | [], _ => rfl
  | x :: rest, h => by
    obtain ⟨p, rfl⟩ := h x (by simp)
    have ih := pullProgressRelay_all_ok ser rest fun y hy => h y (by simp [hy])
    simp [pullProgressRelay, ih]

/-- Counterexample for C8 as stated: after a stream-level error the events
relay does NOT terminate the subscription — the item following the error is
still forwarded to the sink, so the emission list is not the
error-notification-then-stop the claim describes. -/
theorem C8_relay_counterexample :
    eventsRelay (fun s : String => some s) [.error "boom", .ok "after"] =
      [("docker-event-error", "Error: boom"), ("docker-event", "after")] ∧
    eventsRelay (fun s : String => some s) [.error "boom", .ok "after"] ≠
      [("docker-event-error", "Error: boom")] := by
  constructor
  · decide
  · decide

/-- C8 (corrected): the events subscription returns Ok independently of the
stream contents (relaying runs on a spawned task) and forwards every item
in order — an error becomes a distinct docker-event-error notification but
the relay keeps consuming the stream rather than terminating the
subscription (and never auto-resubscribes within it). The pull-progress
relay instead runs inline in the subscribing command: it forwards progress
items until the stream ends or the first error, at which point it stops,
ignores the rest of the stream, and returns the error as the command's
result rather than emitting an error notification to the sink; only an
error-free stream yields an Ok result, available after the stream ends. -/
theorem C8_relay_amended :
    (∀ (α : Type) (ser : α → Option String) (stream : List (Except String α)),
      (subscribe_to_docker_events ser stream).1 = .ok ()) ∧
    (∀ (α : Type) (ser : α → Option String) (s1 s2 : List (Except String α)),
      eventsRelay ser (s1 ++ s2) = eventsRelay ser s1 ++ eventsRelay ser s2) ∧
    (∀ (α : Type) (ser : α → Option String) (e : String),
      eventsRelay ser [.error e] = [("docker-event-error", "Error: " ++ e)]) ∧
    (∀ (α : Type) (ser : α → Option String) (pre : List (Except String α))
        (e : String) (post : List (Except String α)),
      (∀ x ∈ pre, ∃ p, x = .ok p) →
      pull_image_with_progress ser (pre ++ .error e :: post) =
        (.error (DockerError.OperationError ("Failed to pull image: " ++ e)).display,
          (pullProgressRelay ser pre).1)) ∧
    (∀ (α : Type) (ser : α → Option String) (stream : List (Except String α)),
      (∀ x ∈ stream, ∃ p, x = .ok p) →
      (pull_image_with_progress ser stream).1 = .ok ()) := by
  refine ⟨fun α ser stream => rfl, fun α ser s1 s2 => eventsRelay_append ser s1 s2,
    fun α ser e => rfl, ?_, ?_⟩
  · intro α ser pre e post h
    unfold pull_image_with_progress
    rw [pullProgressRelay_stops ser pre e post h]
  · intro α ser stream h
    unfold pull_image_with_progress
    exact pullProgressRelay_all_ok ser stream h

/-- Witness for C8: a one-progress-then-error stream makes the pull command
return the formatted error with only the progress item emitted. -/
theorem C8_relay_amended_witness :
    pull_image_with_progress (fun s : String => some s)
        ([.ok "p1"] ++ .error "boom" :: []) =
      (.error (DockerError.OperationError ("Failed to pull image: " ++ "boom")).display,
        (pullProgressRelay (fun s : String => some s) [.ok "p1"]).1) :=
  C8_relay_amended.2.2.2.1 String (fun s => some s) [.ok "p1"] "boom" []
    (fun x hx => ⟨"p1", by simpa using hx⟩)

/-! ### C1: parse_size -/

/-- Counterexample for C1 as stated: parse_size does not handle a sign. On
"+1KB" the grammar of the claim reads an optional sign, numeric part 1 and
unit KB, giving 1 * 1024; the code instead folds the sign character into
the unit part, fails to recognize the unit "+KB", and returns the numeric
part as raw bytes. -/
theorem C1_parse_size_counterexample :
    parse_size "+1KB" = 1 ∧ parse_size "+1KB" ≠ 1 * 1024 := by
  constructor
  · decide
  · decide

/-- C1 (corrected): parse_size follows the claimed grammar except that
there is no sign handling: digit and dot characters form the numeric part
and every other non-whitespace character joins the unit suffix in order (so
a sign character lands in the unit, which then matches nothing and yields
raw bytes). For an input of digits followed by a unit, the uppercased unit
is matched against B, KB/K, MB/M, GB/G, TB/T and the value multiplied by
1024^n with n in 0..4; an unrecognized or missing unit gives raw bytes; the
empty string yields 0; the claimed examples hold, including
round(1.5 * 1024^3) for "1.5GB", and unit matching is case-insensitive
("10mb" parses like "10MB"). The two bound hypotheses keep the value in the
range where the Rust f64 pipeline is exact and the u64 cast does not
saturate. -/
theorem C1_parse_size_amended :
    parse_size "" = 0 ∧
    parse_size "10MB" = 10 * 1024 * 1024 ∧
    parse_size "1.5GB" = 1610612736 ∧
    parse_size "0B" = 0 ∧
    parse_size "10mb" = 10 * 1024 * 1024 ∧
    (∀ (ds : List Char) (u : String), ds ≠ [] →
      (∀ c ∈ ds, c.isDigit = true) →
      (∀ c ∈ u.data, isNumericChar c = false ∧ c.isWhitespace = false) →
      digitsVal ds < 2 ^ 53 →
      digitsVal ds * unitMultiplier (String.mk (u.data.map Char.toUpper)) < 2 ^ 64 →
      parse_size (String.mk (ds ++ u.data)) =
        digitsVal ds * unitMultiplier (String.mk (u.data.map Char.toUpper))) := by
  refine ⟨by decide, by decide, by decide, by decide, by decide, ?_⟩
  intro ds u hne hdig hu _hexact hbound
  have hsne : String.mk (ds ++ u.data) ≠ "" := by
    intro he
    have hdata : ds ++ u.data = [] := congrArg String.data he
    rcases ds with _ | ⟨c, cs⟩
    · exact hne rfl
    · simp at hdata
  have hws : ∀ c ∈ ds ++ u.data, c.isWhitespace = false := by
    intro c hc
    rcases List.mem_append.mp hc with hcm | hcm
    · exact isDigit_not_ws (hdig c hcm)
    · exact (hu c hcm).2
  have htrim : trimChars (ds ++ u.data) = ds ++ u.data := by
    unfold trimChars
    rw [dropWhile_of_all_neg hws,
      dropWhile_of_all_neg fun c hc => hws c (List.mem_reverse.mp hc),
      List.reverse_reverse]
  have hf1 : (ds ++ u.data).filter isNumericChar = ds := by
    rw [List.filter_append,
      filter_of_all_pos fun c hc => isDigit_numeric (hdig c hc),
      filter_of_all_neg fun c hc => (hu c hc).1, List.append_nil]
  have hf2 : (ds ++ u.data).filter (fun c => !isNumericChar c && !c.isWhitespace) = u.data := by
    rw [List.filter_append,
      filter_of_all_neg (p := fun c => !isNumericChar c && !c.isWhitespace)
        (fun c hc => by simp [isDigit_numeric (hdig c hc)]),
      filter_of_all_pos (p := fun c => !isNumericChar c && !c.isWhitespace)
        (fun c hc => by simp [(hu c hc).1, (hu c hc).2]),
      List.nil_append]
  have hnum : parseNumericN ds = (digitsVal ds, 0) := by
    have hdot : ('.' : Char) ∉ ds := by
      intro hmem
      have hd := isDigit_ne_dot (hdig '.' hmem)
      simp at hd
    have hany : ds.any Char.isDigit = true := by
      rcases ds with _ | ⟨c, cs⟩
      · exact absurd rfl hne
      · simp only [List.any_cons, Bool.or_eq_true]
        exact Or.inl (hdig c (by simp))
    have hcount : ds.count '.' = 0 := List.count_eq_zero.mpr hdot
    unfold parseNumericN
    rw [if_pos ⟨hany, by omega⟩,
      filter_of_all_pos fun c hc => by simp [isDigit_ne_dot (hdig c hc)],
      dropWhile_of_all_pos fun c hc => by simp [isDigit_ne_dot (hdig c hc)]]
    rfl
  unfold parse_size
  rw [if_neg hsne]
  dsimp only
  rw [htrim, hf1, hf2, hnum]
  simp only [pow_zero, Nat.div_one]
  omega

/-- Witness for C1's general clause: digits "7" with lowercase unit "kb"
parse to 7 * 1024. -/
theorem C1_parse_size_amended_witness : parse_size "7kb" = 7 * 1024 := by
  have h := C1_parse_size_amended.2.2.2.2.2 "7".data "kb" (by decide) (by decide)
    (by decide) (by decide) (by decide)
  rw [show ("7kb" : String) = String.mk ("7".data ++ "kb".data) from rfl, h]
  decide

end Rykard
